import Mathlib

/-!
Verification of the Adhyayan AI authentication core: the backend token
issuance/verification flow (`server.js`, given as `src/unnamed/part_000`) and
the client-side session state machine / authenticated API gateway
(`src/client/lib/api.ts`).

Server side, modelled here:
  * `jwtSign` / `jwtVerify`: the `jsonwebtoken` sign/verify pair as used by the
    code (`jwt.sign({uid,email,displayName}, secret, {expiresIn:"7d"})` and
    `jwt.verify(token, secret)`).  A token on the wire is a string; its decoded
    form is the inductive `Jwt`.  Middleware code receives strings and decodes
    them through an abstract `dec : String → Jwt` parameter.
  * `verifyTokenMw`: the `verifyToken` Express middleware.
  * `authGoogleHandler`: the `POST /api/auth/google` route handler.
  * `authGoogleDb`: its User-collection upsert (findOne by `firebase_uid`,
    create if absent, else update `display_name`/`photo_url`/`updated_at`).

Client side, modelled here:
  * `TokenStore`: the two `localStorage` keys `authToken` and `user`.
  * `makeRequest`: `ApiService.makeRequest` response handling (401 clears the
    store and hard-redirects to "/", then throws; other errors just throw).
  * `generateAudio`: `ApiService.generateAudio`, which calls `fetch` directly
    and bypasses `makeRequest`.
  * `initClient` / `stepEv`: the `AuthProvider` session state machine — the
    synchronous cached-session check on mount, the `onAuthStateChanged`
    callback, and the explicit `login` / `logout` calls.
-/

/-- The identity record `{uid, email, displayName, photoURL}` (the client's
`CustomUser` interface and the `user` object posted to `/api/auth/google`;
`email`, `displayName`, `photoURL` are nullable in the source). -/
structure UserInfo where
  uid : String
  email : Option String
  displayName : Option String
  photoURL : Option String
deriving DecidableEq, Repr

/-- The claims embedded in a session token by
`jwt.sign({uid, email, displayName}, ...)`. -/
structure Claims where
  uid : String
  email : Option String
  displayName : Option String
deriving DecidableEq, Repr

/-- A decoded token string.  `signed` is a structurally valid JWT carrying its
payload, `iat`/`exp`/optional `nbf` timestamps (seconds), and the secret whose
HMAC signature it bears; `malformedTok` is a string that does not decode as a
JWT at all. -/
inductive Jwt where
  | signed (c : Claims) (iat : Nat) (exp : Nat) (nbf : Option Nat) (secret : String)
  | malformedTok (s : String)
deriving DecidableEq, Repr

/-- The payload `jwt.verify` hands back on success (assigned to `req.user`). -/
structure DecodedPayload where
  uid : String
  email : Option String
  displayName : Option String
  iat : Nat
  exp : Nat
deriving DecidableEq, Repr

/-- The error classes `jsonwebtoken` throws from `jwt.verify`, as the
middleware distinguishes them by `error.name`:  `TokenExpiredError`,
`JsonWebTokenError` (malformed token or bad signature), and anything else
(e.g. `NotBeforeError` for a token whose `nbf` lies in the future). -/
inductive JwtError where
  | tokenExpiredError
  | jsonWebTokenError
  | otherError
deriving DecidableEq, Repr

/-- `expiresIn: "7d"` in seconds. -/
def sevenDays : Nat := 7 * 24 * 60 * 60

/-- `jwt.sign({uid, email, displayName}, secret, {expiresIn: "7d"})` at time
`iat`: a well-formed token, no `nbf`, expiring `7d` after issuance. -/
def jwtSign (c : Claims) (secret : String) (iat : Nat) : Jwt :=
  .signed c iat (iat + sevenDays) none secret

/-- `jwt.verify(token, secret)` at time `now`: a malformed string or a
signature under a different secret raises `JsonWebTokenError`; a `nbf` in the
future raises `NotBeforeError` (landing in the middleware's catch-all); an
`exp ≤ now` raises `TokenExpiredError`; otherwise the payload is returned. -/
def jwtVerify (t : Jwt) (secret : String) (now : Nat) : Except JwtError DecodedPayload :=
  match t with
  | .malformedTok _ => .error .jsonWebTokenError
  | .signed c iat exp nbf sec =>
    if sec ≠ secret then .error .jsonWebTokenError
    else if nbf.isSome ∧ now < nbf.getD 0 then .error .otherError
    else if exp ≤ now then .error .tokenExpiredError
    else .ok ⟨c.uid, c.email, c.displayName, iat, exp⟩

/-- JavaScript `String.prototype.split(" ")` on a character list: splits at
every space, keeping empty segments (`"".split(" ") = [""]`,
`"a  b".split(" ") = ["a","","b"]`). -/
def splitSpaceChars : List Char → List Char → List (List Char)
  | [], acc => [acc.reverse]
  | c :: cs, acc =>
    if c = ' ' then acc.reverse :: splitSpaceChars cs [] else splitSpaceChars cs (c :: acc)

/-- JavaScript `s.split(" ")`. -/
def jsSplitSpace (s : String) : List String :=
  (splitSpaceChars s.data []).map (fun cs => ⟨cs⟩)

/-- `authHeader.split(" ")[1]` followed by the middleware's `if (!token)`
truthiness check: `undefined` (fewer than two segments) and the empty string
are both rejected. -/
def headerToken (authHeader : String) : Option String :=
  match (jsSplitSpace authHeader).get? 1 with
  | none => none
  | some t => if t = "" then none else some t

/-- The outcome of the `verifyToken` middleware: a `res.status(...).json({error})`
rejection, or acceptance with `req.user` set to the decoded payload. -/
inductive MwResult where
  | reject (status : Nat) (error : String)
  | accept (user : DecodedPayload)
deriving DecidableEq, Repr

/-- The message the middleware's catch maps each `error.name` to. -/
def jwtErrMsg : JwtError → String
  | .tokenExpiredError => "Token expired"
  | .jsonWebTokenError => "Invalid token format"
  | .otherError => "Invalid token"

/-- The `verifyToken` Express middleware.  `authHeader` is
`req.headers.authorization`; `dec` decodes a wire token string to its `Jwt`
form; `jwtSecret` is `process.env.JWT_SECRET || "your-secret-key"`. -/
def verifyTokenMw (authHeader : Option String) (dec : String → Jwt)
    (jwtSecret : String) (now : Nat) : MwResult :=
  match authHeader with
  | none => .reject 401 "No authorization header provided"
  | some h =>
    match headerToken h with
    | none => .reject 401 "No token provided"
    | some tok =>
      match jwtVerify (dec tok) jwtSecret now with
      | .error e => .reject 401 (jwtErrMsg e)
      | .ok d => .accept d

/-! ## Backend `POST /api/auth/google`: User upsert and token issuance -/

/-- A persisted User document, with the fields the handler reads and writes:
`firebase_uid` (unique key), `email`, `display_name`, `photo_url`,
`updated_at`. -/
structure DbUser where
  firebase_uid : String
  email : Option String
  display_name : Option String
  photo_url : Option String
  updated_at : Nat
deriving DecidableEq, Repr

/-- `User.findOne({firebase_uid: uid})`: the first stored document whose
`firebase_uid` matches. -/
def findUser (db : List DbUser) (uid : String) : Option DbUser :=
  db.find? (fun r => r.firebase_uid = uid)

/-- The handler's upsert: `User.findOne({firebase_uid: user.uid})`; if absent,
`new User({firebase_uid, email, display_name, photo_url})` is saved; if
present, that document's `display_name`, `photo_url` and `updated_at` are
overwritten and it is saved back. -/
def authGoogleDb (db : List DbUser) (u : UserInfo) (now : Nat) : List DbUser :=
  match db with
  | [] => [⟨u.uid, u.email, u.displayName, u.photoURL, now⟩]
  | r :: rest =>
    if r.firebase_uid = u.uid then
      { r with display_name := u.displayName, photo_url := u.photoURL, updated_at := now } :: rest
    else r :: authGoogleDb rest u now

/-- A demo User-collection used by concrete witness instantiations. -/
def demoDb : List DbUser :=
  [⟨"a", some "x@y", none, none, 0⟩, ⟨"u1", some "a@b.com", some "Old", some "p", 0⟩]

/-- A demo identity posting fresh profile fields for subject `u1`. -/
def demoUpd : UserInfo := ⟨"u1", none, some "New", none⟩

/-- The request body of `POST /api/auth/google`: `const {idToken, user} = req.body`.
Either destructured field may be absent (`undefined`). -/
structure AuthGoogleBody where
  idToken : Option String
  user : Option UserInfo
deriving DecidableEq, Repr

/-- The handler's HTTP response: `res.json({success:true, token, user})` on
success, `res.status(500).json({error:"Authentication failed"})` from the
outer catch. -/
inductive AuthGoogleResp where
  | okResp (token : Jwt) (user : UserInfo)
  | errResp (status : Nat) (error : String)
deriving DecidableEq, Repr

/-- The `POST /api/auth/google` handler.  `dbAvailable = false` models the
database raising on `findOne`/`save` (the inner `catch (dbError)` logs and
continues).  When `user` is absent from the body, `user.uid` raises a
`TypeError`: the first raise (inside the inner try, before any database
access) is swallowed by the inner catch, and the second (in `jwt.sign`'s
argument) reaches the outer catch, which answers 500.  Otherwise a fresh
7-day token over `{uid, email, displayName}` is signed and the posted
identity fields are echoed back.  Returns the response and the resulting
database contents. -/
def authGoogleHandler (body : AuthGoogleBody) (db : List DbUser) (dbAvailable : Bool)
    (secret : String) (now : Nat) : AuthGoogleResp × List DbUser :=
  match body.user with
  | none => (.errResp 500 "Authentication failed", db)
  | some u =>
    let db' := if dbAvailable then authGoogleDb db u now else db
    (.okResp (jwtSign ⟨u.uid, u.email, u.displayName⟩ secret now) u, db')

/-! ## Client: Token Store and Authenticated API Gateway -/

/-- The two `localStorage` keys: `authToken` (a raw token string) and `user`
(the JSON-serialised identity snapshot; this backend only ever stores a
serialised object, modelled as the parsed `UserInfo`). -/
structure TokenStore where
  authToken : Option String
  userData : Option UserInfo
deriving DecidableEq, Repr

/-- Both keys removed. -/
def emptyStore : TokenStore := ⟨none, none⟩

/-- An HTTP exchange outcome as the client sees it: a 2xx response with a
parsed body, a non-2xx status whose JSON body's `error` field is `errorMsg`
(every non-2xx answer of this backend is `{error: ...}` JSON), or a
network-level `fetch` failure (no response at all). -/
inductive HttpResp (α : Type) where
  | ok (body : α)
  | errSt (status : Nat) (errorMsg : String)
  | netFail
deriving DecidableEq, Repr

/-- What a gateway call leaves behind: the Token Store afterwards, a hard
redirect target if `window.location.href` was assigned, and the returned body
or the thrown error message. -/
structure GatewayResult (α : Type) where
  store : TokenStore
  redirect : Option String
  result : Except String α
deriving Repr

/-- `ApiService.makeRequest` response handling.  On a non-ok response with
status 401 it removes both Token Store keys and assigns
`window.location.href = "/"` before throwing the parsed error; any other
non-ok status just throws; a network failure throws the distinct
"Network error" message; an ok response returns its body. -/
def makeRequest {α : Type} (st : TokenStore) (resp : HttpResp α) : GatewayResult α :=
  match resp with
  | .ok b => ⟨st, none, .ok b⟩
  | .errSt status msg =>
    if status = 401 then ⟨emptyStore, some "/", .error msg⟩
    else ⟨st, none, .error msg⟩
  | .netFail =>
    ⟨st, none,
      .error "Network error: Unable to connect to server. Please check if the backend is running."⟩

/-- `ApiService.generateAudio`: calls `fetch` directly rather than going
through `makeRequest`; a non-ok response of any status (401 included) only
throws `Podcast audio generation failed: ...` — it never touches the Token
Store and never assigns `window.location.href`. -/
def generateAudio (st : TokenStore) (resp : HttpResp String) : GatewayResult String :=
  match resp with
  | .ok blob => ⟨st, none, .ok blob⟩
  | .errSt _ msg => ⟨st, none, .error ("Podcast audio generation failed: " ++ msg)⟩
  | .netFail => ⟨st, none, .error "TypeError: fetch failed"⟩

/-- `ApiService.authenticateWithGoogle`: posts to `/auth/google` and, when the
response carries a truthy `token`, stores it together with the echoed
`response.user`.  Outcomes (composed with this backend): 2xx with a token
string and the echoed identity, or a raised error (500 route failure or
network failure — `/api/auth/google` never answers 401, having no
`verifyToken`). -/
inductive ExchResult where
  | exOk (tok : String)
  | exFail
deriving DecidableEq, Repr

/-- Store effect and return of `authenticateWithGoogle` when posting identity
`u`: on a 2xx response it writes `authToken`/`user` only when `response.token`
is truthy (non-empty) — `response.user` is the backend's echo of the posted
`u` — and returns the token field; on failure (`exFail`) the `await` throws
and the store is untouched. -/
def authenticateWithGoogle (st : TokenStore) (u : UserInfo) (r : ExchResult) :
    TokenStore × Option String :=
  match r with
  | .exOk tok =>
    (if tok = "" then st else ⟨some tok, some u⟩, some tok)
  | .exFail => (st, none)

/-! ## Client: Session State Machine (`AuthProvider`) -/

/-- The `AuthProvider` component's observable state: the React state triple
`user` / `loading` / `isAuthenticated`, the `hasProcessedInitialAuth` ref, the
Token Store, the last `window.location.href` assignment (hard redirect) if
any, and the current `window.location.pathname`. -/
structure ClientState where
  user : Option UserInfo
  loading : Bool
  isAuthenticated : Bool
  hasProcessedInitialAuth : Bool
  store : TokenStore
  lastHardRedirect : Option String
  pathname : String
deriving DecidableEq, Repr

/-- Mounting the `AuthProvider` on page `page` with Token Store contents
`st`: React state starts as `user = null`, `loading = true`,
`isAuthenticated = false`; the effect then synchronously reads both keys and,
when a stored user and a (truthy, hence non-empty) token are both present,
sets `user`, `isAuthenticated` and `hasProcessedInitialAuth` from the cache.
No network call is involved. -/
def initClient (st : TokenStore) (page : String) : ClientState :=
  match st.userData, st.authToken with
  | some u, some t =>
    if t = "" then ⟨none, true, false, false, st, none, page⟩
    else ⟨some u, true, true, true, st, none, page⟩
  | _, _ => ⟨none, true, false, false, st, none, page⟩

/-- The `onAuthStateChanged` callback on Firebase snapshot `fu`, with `r` the
outcome of the backend exchange should one be performed.  A non-null identity
with `hasProcessedInitialAuth` still false triggers the backend exchange: on
normal return the callback unconditionally sets `user`/`isAuthenticated`,
marks the ref, and pushes `/dashboard` when on the home page; a raised error
is only logged.  A null identity with the ref set tears the session down and
clears both store keys.  All other combinations are no-ops.  Either way the
callback ends with `setLoading(false)`. -/
def onAuthStateChangedCb (s : ClientState) (fu : Option UserInfo) (r : ExchResult) :
    ClientState :=
  let s' :=
    match fu with
    | some u =>
      if s.hasProcessedInitialAuth then s
      else
        match authenticateWithGoogle s.store u r with
        | (st', some _tok) =>
          let s2 := { s with
            store := st', user := some u, isAuthenticated := true,
            hasProcessedInitialAuth := true }
          if s.pathname = "/" then { s2 with pathname := "/dashboard" } else s2
        | (st', none) => { s with store := st' }
    | none =>
      if s.hasProcessedInitialAuth then
        { s with
          user := none, isAuthenticated := false, hasProcessedInitialAuth := false,
          store := emptyStore }
      else s
  { s' with loading := false }

/-- The explicit `login(idToken, userData)` call.  On an exchange that returns
with a truthy token: both keys are stored (again), `user`/`isAuthenticated`
are set (note: `hasProcessedInitialAuth` is not touched), and `/dashboard` is
pushed when on the home page.  A falsy token raises "No token received from
backend"; an exchange failure is re-raised.  The Bool is whether the call
threw to its caller. -/
def loginCall (s : ClientState) (u : UserInfo) (r : ExchResult) : ClientState × Bool :=
  match authenticateWithGoogle s.store u r with
  | (st', some tok) =>
    if tok = "" then ({ s with store := st' }, true)
    else
      let s2 := { s with store := ⟨some tok, some u⟩, user := some u, isAuthenticated := true }
      (if s.pathname = "/" then { s2 with pathname := "/dashboard" } else s2, false)
  | (st', none) => ({ s with store := st' }, true)

/-- `ApiService.logout`: `post("/auth/logout")` through `makeRequest`, then
(only when that returned normally) remove both keys. -/
def apiLogout (st : TokenStore) (resp : HttpResp Unit) : GatewayResult Unit :=
  let r := makeRequest st resp
  match r.result with
  | .ok _ => ⟨emptyStore, r.redirect, .ok ()⟩
  | .error e => ⟨r.store, r.redirect, .error e⟩

/-- The `AuthProvider.logout` call: try `apiService.logout()`; in both the try
and the catch branch, `user` and `isAuthenticated` are reset, both keys are
removed, and Firebase sign-out is requested.  The catch swallows the error,
so the call never throws to its caller (the Bool is whether it threw). -/
def logoutCallFn (s : ClientState) (resp : HttpResp Unit) : ClientState × Bool :=
  let r := apiLogout s.store resp
  ({ s with
      user := none, isAuthenticated := false, store := emptyStore,
      lastHardRedirect :=
        (match r.redirect with | some p => some p | none => s.lastHardRedirect) },
   false)

/-- One externally triggered event of the session state machine: an identity
provider snapshot (with the backend exchange outcome it would entail), an
explicit `login`, or an explicit `logout` (with the HTTP outcome of the
backend logout call). -/
inductive AuthEvent where
  | fbEvent (fu : Option UserInfo) (r : ExchResult)
  | login (u : UserInfo) (r : ExchResult)
  | logout (resp : HttpResp Unit)
deriving DecidableEq, Repr

/-- Step the machine by one event; the Bool reports whether the call raised to
its caller (only `login` can). -/
def stepEv (s : ClientState) : AuthEvent → ClientState × Bool
  | .fbEvent fu r => (onAuthStateChangedCb s fu r, false)
  | .login u r => loginCall s u r
  | .logout resp => logoutCallFn s resp

/-- Run a whole event sequence from a mount with store contents `st0` on page
`page`. -/
def runClient (st0 : TokenStore) (page : String) (evs : List AuthEvent) : ClientState :=
  evs.foldl (fun s e => (stepEv s e).1) (initClient st0 page)

/-- The response the backend gives the gateway's `POST /api/auth/logout` for a
client whose Token Store is `st`: the gateway attaches `Bearer <token>` iff a
token is stored, `verifyToken` gates the route, and on acceptance the route
answers `{success:true}`. -/
def serverLogoutResp (st : TokenStore) (dec : String → Jwt) (secret : String)
    (now : Nat) : HttpResp Unit :=
  match verifyTokenMw (st.authToken.map (fun t => "Bearer " ++ t)) dec secret now with
  | .reject status e => .errSt status e
  | .accept _ => .ok ()

/-- The §3 session invariant, read off the exposed state: whenever
`isAuthenticated` is true, `user` is non-null and a non-empty token sits in
the Token Store. -/
def sessionInv (s : ClientState) : Prop :=
  s.isAuthenticated = true →
    s.user.isSome = true ∧ ∃ t, s.store.authToken = some t ∧ t ≠ ""

/-- Composition fact cutting the event alphabet down to what this backend can
actually deliver: a successful `/api/auth/google` exchange carries the
`jwt.sign` output, which is never the empty string. -/
def evWF : AuthEvent → Bool
  | .fbEvent _ (.exOk tok) => tok ≠ ""
  | _ => true

/-- A demo identity for concrete witness instantiations. -/
def demoUser : UserInfo := ⟨"u1", some "a@b.com", some "A", none⟩

/-- The canonical `UNAUTHENTICATED` client state: no user, not authenticated,
both Token Store keys absent, initial reconciliation done. -/
def unauthState : ClientState :=
  ⟨none, false, false, false, emptyStore, none, "/dashboard"⟩

/-! ## Helper lemmas about JavaScript-style space splitting -/

theorem splitSpaceChars_no_space (cs : List Char) (acc : List Char)
    (h : ∀ c ∈ cs, c ≠ ' ') : splitSpaceChars cs acc = [acc.reverse ++ cs] := by
  induction cs generalizing acc with
  | nil => simp [splitSpaceChars]
  | cons c cs ih =>
    have hc : c ≠ ' ' := h c (by simp)
    rw [splitSpaceChars, if_neg hc, ih (c :: acc) (fun x hx => h x (by simp [hx]))]
    simp

theorem splitSpaceChars_word (ws cs : List Char) (acc : List Char)
    (hw : ∀ c ∈ ws, c ≠ ' ') :
    splitSpaceChars (ws ++ ' ' :: cs) acc = (acc.reverse ++ ws) :: splitSpaceChars cs [] := by
  induction ws generalizing acc with
  | nil => simp [splitSpaceChars]
  | cons w ws ih =>
    have hc : w ≠ ' ' := hw w (by simp)
    rw [List.cons_append, splitSpaceChars, if_neg hc,
      ih (w :: acc) (fun x hx => hw x (by simp [hx]))]
    simp

/-- `headerToken` on `<word> <tok>` extracts `tok` whatever the first word is,
provided `tok` itself holds no space and is non-empty. -/
theorem headerToken_word (w s : String) (hw : ∀ c ∈ w.data, c ≠ ' ')
    (hs : ∀ c ∈ s.data, c ≠ ' ') (hne : s ≠ "") :
    headerToken (w ++ " " ++ s) = some s := by
  have hdata : (w ++ " " ++ s).data = w.data ++ ' ' :: s.data := by
    simp [String.data_append]
  rw [headerToken, jsSplitSpace, hdata, splitSpaceChars_word w.data s.data [] hw,
    splitSpaceChars_no_space s.data [] hs]
  simp [hne]

/-- `headerToken` on a bare space-free token string is `none`: JS
`s.split(" ")[1]` is `undefined`. -/
theorem headerToken_bare (s : String) (hs : ∀ c ∈ s.data, c ≠ ' ') :
    headerToken s = none := by
  rw [headerToken, jsSplitSpace, splitSpaceChars_no_space s.data [] hs]
  simp

/-! ## Claim theorems: Token Verification Middleware -/

/-- C2.  For every claims triple, a Session Token issued by the identity
exchange (`jwt.sign` with a 7-day expiry, wire string `s`), presented to the
`verifyToken` middleware as `Bearer <s>` before its expiry under the same
signing secret, is accepted and `req.user` carries back exactly the same
`uid`, `email` and `displayName`; the same token presented at or after expiry
is rejected (401, Token expired). -/
theorem token_roundtrip (c : Claims) (secret : String) (iat now now' : Nat)
    (s : String) (dec : String → Jwt)
    (hs : ∀ ch ∈ s.data, ch ≠ ' ') (hne : s ≠ "")
    (hdec : dec s = jwtSign c secret iat)
    (hbefore : now < iat + sevenDays) (hafter : iat + sevenDays ≤ now') :
    verifyTokenMw (some ("Bearer " ++ s)) dec secret now =
      .accept ⟨c.uid, c.email, c.displayName, iat, iat + sevenDays⟩ ∧
    verifyTokenMw (some ("Bearer " ++ s)) dec secret now' =
      .reject 401 "Token expired" := by
  have hb : ("Bearer " ++ s) = "Bearer" ++ " " ++ s := by
    apply congrArg String.mk
    simp [String.data_append]
  have htok : headerToken ("Bearer " ++ s) = some s := by
    rw [hb]
    exact headerToken_word "Bearer" s (by decide) hs hne
  have h1 : ¬ (iat + sevenDays ≤ now) := Nat.not_le.mpr hbefore
  constructor
  · simp [verifyTokenMw, htok, hdec, jwtSign, jwtVerify, h1]
  · simp [verifyTokenMw, htok, hdec, jwtSign, jwtVerify, hafter, jwtErrMsg]

/-- C2 witness: concrete round trip at `{uid "u1", email "a@b.com",
displayName "A"}`, issuance time 0, checked at times 1 and `sevenDays`. -/
theorem token_roundtrip_witness :
    verifyTokenMw (some ("Bearer " ++ "tok"))
        (fun _ => jwtSign ⟨"u1", some "a@b.com", some "A"⟩ "your-secret-key" 0)
        "your-secret-key" 1 =
      .accept ⟨"u1", some "a@b.com", some "A", 0, 0 + sevenDays⟩ ∧
    verifyTokenMw (some ("Bearer " ++ "tok"))
        (fun _ => jwtSign ⟨"u1", some "a@b.com", some "A"⟩ "your-secret-key" 0)
        "your-secret-key" sevenDays =
      .reject 401 "Token expired" :=
  token_roundtrip ⟨"u1", some "a@b.com", some "A"⟩ "your-secret-key" 0 1 sevenDays
    "tok" (fun _ => jwtSign ⟨"u1", some "a@b.com", some "A"⟩ "your-secret-key" 0)
    (by decide) (by decide) rfl (by decide) (by decide)

/-- C7.  The middleware rejects a missing `Authorization` header, and a header
from which no token can be extracted, with the authentication-required errors;
an invalid token is rejected with a message determined by the `jsonwebtoken`
error class — `Token expired` / `Invalid token format` / `Invalid token` —
three pairwise distinct machine-readable codes, all carried by the same HTTP
status 401. -/
theorem verify_token_error_taxonomy :
    (∀ (dec : String → Jwt) (secret : String) (now : Nat),
      verifyTokenMw none dec secret now = .reject 401 "No authorization header provided") ∧
    (∀ (h : String) (dec : String → Jwt) (secret : String) (now : Nat),
      headerToken h = none →
      verifyTokenMw (some h) dec secret now = .reject 401 "No token provided") ∧
    (∀ (h tok : String) (dec : String → Jwt) (secret : String) (now : Nat) (e : JwtError),
      headerToken h = some tok → jwtVerify (dec tok) secret now = .error e →
      verifyTokenMw (some h) dec secret now = .reject 401 (jwtErrMsg e)) ∧
    (jwtErrMsg .tokenExpiredError ≠ jwtErrMsg .jsonWebTokenError ∧
     jwtErrMsg .tokenExpiredError ≠ jwtErrMsg .otherError ∧
     jwtErrMsg .jsonWebTokenError ≠ jwtErrMsg .otherError) := by
  refine ⟨fun dec secret now => rfl, fun h dec secret now hh => ?_,
    fun h tok dec secret now e hh hv => ?_, by decide⟩
  · rw [verifyTokenMw, hh]
  · simp [verifyTokenMw, hh, hv]

/-- C7 witness: the three rejection shapes at concrete inputs — no header, a
header with no second segment, and a malformed token. -/
theorem verify_token_error_taxonomy_witness :
    verifyTokenMw none (fun s => .malformedTok s) "your-secret-key" 0 =
      .reject 401 "No authorization header provided" ∧
    verifyTokenMw (some "Bearer") (fun s => .malformedTok s) "your-secret-key" 0 =
      .reject 401 "No token provided" ∧
    verifyTokenMw (some "Bearer xyz") (fun s => .malformedTok s) "your-secret-key" 0 =
      .reject 401 (jwtErrMsg .jsonWebTokenError) :=
  ⟨verify_token_error_taxonomy.1 (fun s => .malformedTok s) "your-secret-key" 0,
   verify_token_error_taxonomy.2.1 "Bearer" (fun s => .malformedTok s) "your-secret-key" 0
     (by decide),
   verify_token_error_taxonomy.2.2.1 "Bearer xyz" "xyz" (fun s => .malformedTok s)
     "your-secret-key" 0 .jsonWebTokenError (by decide) rfl⟩

/-- C10.  The middleware takes the second space-delimited segment of the
`Authorization` header as the token without checking the scheme: any first
word followed by a space and a valid unexpired token is accepted, while a
header consisting of the bare token with no preceding space-separated word is
rejected with the authentication-required error. -/
theorem scheme_not_checked (w s : String) (c : Claims) (secret : String)
    (iat now : Nat) (dec : String → Jwt)
    (hw : ∀ ch ∈ w.data, ch ≠ ' ') (hs : ∀ ch ∈ s.data, ch ≠ ' ') (hne : s ≠ "")
    (hdec : dec s = jwtSign c secret iat) (hbefore : now < iat + sevenDays) :
    verifyTokenMw (some (w ++ " " ++ s)) dec secret now =
      .accept ⟨c.uid, c.email, c.displayName, iat, iat + sevenDays⟩ ∧
    verifyTokenMw (some s) dec secret now = .reject 401 "No token provided" := by
  have h1 : ¬ (iat + sevenDays ≤ now) := Nat.not_le.mpr hbefore
  constructor
  · simp [verifyTokenMw, headerToken_word w s hw hs hne, hdec, jwtSign, jwtVerify, h1]
  · rw [verifyTokenMw, headerToken_bare s hs]

/-- C10 witness: `"NotBearer tok"` is accepted, bare `"tok"` is rejected. -/
theorem scheme_not_checked_witness :
    verifyTokenMw (some ("NotBearer" ++ " " ++ "tok"))
        (fun _ => jwtSign ⟨"u1", none, none⟩ "your-secret-key" 0) "your-secret-key" 1 =
      .accept ⟨"u1", none, none, 0, 0 + sevenDays⟩ ∧
    verifyTokenMw (some "tok")
        (fun _ => jwtSign ⟨"u1", none, none⟩ "your-secret-key" 0) "your-secret-key" 1 =
      .reject 401 "No token provided" :=
  scheme_not_checked "NotBearer" "tok" ⟨"u1", none, none⟩ "your-secret-key" 0 1
    (fun _ => jwtSign ⟨"u1", none, none⟩ "your-secret-key" 0)
    (by decide) (by decide) (by decide) rfl (by decide)





/-! ## Claim theorems: Backend Token Service (`POST /api/auth/google`) -/

/-- C5 counterexample.  A request whose body is missing the claimed identity
record is answered with HTTP 500 — a server error, not a client-error (4xx)
status: the `TypeError` raised by `user.uid` reaches the route's outer catch,
which answers `res.status(500)`. -/
theorem auth_google_malformed_counterexample :
    (authGoogleHandler ⟨some "idTok", none⟩ [] true "your-secret-key" 0).1 =
      .errResp 500 "Authentication failed" ∧
    ¬ (400 ≤ 500 ∧ 500 < 500) := by
  exact ⟨rfl, by decide⟩

/-- C5 amended.  For every identity-exchange request whose body is missing the
claimed identity record, the Backend Token Service rejects the request — but
with the server-error status 500 ("Authentication failed"), not a client-error
(4xx) status, and the database is left untouched. -/
theorem auth_google_malformed (body : AuthGoogleBody) (db : List DbUser)
    (dbAvailable : Bool) (secret : String) (now : Nat) (h : body.user = none) :
    authGoogleHandler body db dbAvailable secret now =
      (.errResp 500 "Authentication failed", db) := by
  simp [authGoogleHandler, h]

/-- C5 amended witness. -/
theorem auth_google_malformed_witness :
    authGoogleHandler ⟨some "idTok", none⟩ [] true "your-secret-key" 0 =
      (.errResp 500 "Authentication failed", []) :=
  auth_google_malformed ⟨some "idTok", none⟩ [] true "your-secret-key" 0 rfl

/-- C6.  For every well-formed identity-exchange request, when persisting the
User Record fails (the database raises, `dbAvailable = false`), the exchange
still completes successfully: a freshly signed 7-day Session Token over the
posted `{uid, email, displayName}` and the echoed identity fields are
returned, the failure is not surfaced, and the store is unchanged. -/
theorem auth_google_db_failure (body : AuthGoogleBody) (db : List DbUser)
    (secret : String) (now : Nat) (u : UserInfo) (h : body.user = some u) :
    authGoogleHandler body db false secret now =
      (.okResp (jwtSign ⟨u.uid, u.email, u.displayName⟩ secret now) u, db) := by
  simp [authGoogleHandler, h]

/-- C6 witness: concrete exchange with the database down. -/
theorem auth_google_db_failure_witness :
    authGoogleHandler ⟨some "idTok", some ⟨"u1", some "a@b.com", some "A", none⟩⟩
        [] false "your-secret-key" 5 =
      (.okResp (jwtSign ⟨"u1", some "a@b.com", some "A"⟩ "your-secret-key" 5)
        ⟨"u1", some "a@b.com", some "A", none⟩, []) :=
  auth_google_db_failure ⟨some "idTok", some ⟨"u1", some "a@b.com", some "A", none⟩⟩
    [] "your-secret-key" 5 ⟨"u1", some "a@b.com", some "A", none⟩ rfl

/-- C8.  When a User Record for the posted subject id already exists, the
upsert replaces exactly that (first matching) record with a copy whose
`display_name`, `photo_url` and `updated_at` are overwritten — its
`firebase_uid` and `email` are untouched, every other record is untouched,
and the store's length is preserved; moreover, for arbitrary inputs, every
previously stored subject id is still present afterwards (no record is ever
deleted). -/
theorem upsert_updates_only_profile :
    (∀ (db : List DbUser) (u : UserInfo) (now : Nat),
      (∃ r ∈ db, r.firebase_uid = u.uid) →
      ∃ i, ∃ hi : i < db.length,
        (db.get ⟨i, hi⟩).firebase_uid = u.uid ∧
        authGoogleDb db u now = db.set i
          { db.get ⟨i, hi⟩ with
            display_name := u.displayName, photo_url := u.photoURL, updated_at := now } ∧
        (authGoogleDb db u now).length = db.length) ∧
    (∀ (db : List DbUser) (u : UserInfo) (now : Nat) (r : DbUser), r ∈ db →
      ∃ r' ∈ authGoogleDb db u now,
        r'.firebase_uid = r.firebase_uid ∧ r'.email = r.email) := by
  constructor
  · intro db u now h
    induction db with
    | nil => simp at h
    | cons r rest ih =>
      by_cases hr : r.firebase_uid = u.uid
      · refine ⟨0, by simp, by simpa using hr, ?_, by simp [authGoogleDb, hr]⟩
        simp [authGoogleDb, hr, List.set]
      · obtain ⟨r', hr', hr'uid⟩ := h
        have hmem : r' ∈ rest := by
          rcases List.mem_cons.mp hr' with h1 | h1
          · exact absurd (h1 ▸ hr'uid) hr
          · exact h1
        obtain ⟨i, hi, hfid, heq, hlen⟩ := ih ⟨r', hmem, hr'uid⟩
        exact ⟨i + 1, by simpa using Nat.succ_lt_succ hi, by simpa using hfid,
          by simp [authGoogleDb, hr, heq, List.set], by simp [authGoogleDb, hr, hlen]⟩
  · intro db u now r hmem
    induction db with
    | nil => simp at hmem
    | cons x rest ih =>
      by_cases hx : x.firebase_uid = u.uid
      · rcases List.mem_cons.mp hmem with h1 | h1
        · exact ⟨{ x with
              display_name := u.displayName, photo_url := u.photoURL, updated_at := now },
            by simp [authGoogleDb, hx], by simp [h1], by simp [h1]⟩
        · exact ⟨r, by simp [authGoogleDb, hx, h1], rfl, rfl⟩
      · rcases List.mem_cons.mp hmem with h1 | h1
        · exact ⟨r, by simp [authGoogleDb, hx, h1], rfl, rfl⟩
        · obtain ⟨r', hr'mem, hr'1, hr'2⟩ := ih h1
          exact ⟨r', by simp [authGoogleDb, hx]; exact Or.inr hr'mem, hr'1, hr'2⟩

/-- C8 witness: a two-record store where the second record matches; only that
record's profile fields change. -/
theorem upsert_updates_only_profile_witness :
    ∃ i, ∃ hi : i < demoDb.length,
      (demoDb.get ⟨i, hi⟩).firebase_uid = demoUpd.uid ∧
      authGoogleDb demoDb demoUpd 9 = demoDb.set i
        { demoDb.get ⟨i, hi⟩ with
          display_name := demoUpd.displayName, photo_url := demoUpd.photoURL,
          updated_at := 9 } ∧
      (authGoogleDb demoDb demoUpd 9).length = demoDb.length :=
  upsert_updates_only_profile.1 demoDb demoUpd 9
    ⟨⟨"u1", some "a@b.com", some "Old", some "p", 0⟩, by decide, rfl⟩

/-! ## Claim theorems: Session State Machine and Authenticated API Gateway -/

/-- The `§3` invariant holds right after mounting, whatever the Token Store
held. -/
theorem sessionInv_init (st0 : TokenStore) (page : String) :
    sessionInv (initClient st0 page) := by
  obtain ⟨tk, ud⟩ := st0
  cases ud with
  | none => intro h; simp [initClient] at h
  | some u =>
    cases tk with
    | none => intro h; simp [initClient] at h
    | some t =>
      by_cases ht : t = ""
      · intro h; simp [initClient, ht] at h
      · intro _h
        exact ⟨by simp [initClient, ht], t, by simp [initClient, ht], ht⟩

/-- The `§3` invariant is preserved by every event the composed system can
deliver. -/
theorem sessionInv_step (s : ClientState) (e : AuthEvent)
    (hinv : sessionInv s) (hwf : evWF e = true) : sessionInv (stepEv s e).1 := by
  cases e with
  | fbEvent fu r =>
    show sessionInv (onAuthStateChangedCb s fu r)
    cases fu with
    | none =>
      by_cases hp : s.hasProcessedInitialAuth
      · intro h
        simp [onAuthStateChangedCb, hp] at h
      · intro h
        obtain ⟨h1, t, h2, h3⟩ := hinv (by simpa [onAuthStateChangedCb, hp] using h)
        exact ⟨by simpa [onAuthStateChangedCb, hp] using h1, t,
          by simpa [onAuthStateChangedCb, hp] using h2, h3⟩
    | some u =>
      by_cases hp : s.hasProcessedInitialAuth
      · intro h
        obtain ⟨h1, t, h2, h3⟩ := hinv (by simpa [onAuthStateChangedCb, hp] using h)
        exact ⟨by simpa [onAuthStateChangedCb, hp] using h1, t,
          by simpa [onAuthStateChangedCb, hp] using h2, h3⟩
      · cases r with
        | exOk tok =>
          have htok : tok ≠ "" := by simpa [evWF] using hwf
          intro _h
          by_cases hpth : s.pathname = "/"
          · exact ⟨by simp [onAuthStateChangedCb, hp, authenticateWithGoogle, htok, hpth],
              tok,
              by simp [onAuthStateChangedCb, hp, authenticateWithGoogle, htok, hpth], htok⟩
          · exact ⟨by simp [onAuthStateChangedCb, hp, authenticateWithGoogle, htok, hpth],
              tok,
              by simp [onAuthStateChangedCb, hp, authenticateWithGoogle, htok, hpth], htok⟩
        | exFail =>
          intro h
          obtain ⟨h1, t, h2, h3⟩ := hinv
            (by simpa [onAuthStateChangedCb, hp, authenticateWithGoogle] using h)
          exact ⟨by simpa [onAuthStateChangedCb, hp, authenticateWithGoogle] using h1, t,
            by simpa [onAuthStateChangedCb, hp, authenticateWithGoogle] using h2, h3⟩
  | login u r =>
    show sessionInv (loginCall s u r).1
    cases r with
    | exOk tok =>
      by_cases htok : tok = ""
      · intro h
        obtain ⟨h1, t, h2, h3⟩ := hinv
          (by simpa [loginCall, authenticateWithGoogle, htok] using h)
        exact ⟨by simpa [loginCall, authenticateWithGoogle, htok] using h1, t,
          by simpa [loginCall, authenticateWithGoogle, htok] using h2, h3⟩
      · intro _h
        by_cases hpth : s.pathname = "/"
        · exact ⟨by simp [loginCall, authenticateWithGoogle, htok, hpth], tok,
            by simp [loginCall, authenticateWithGoogle, htok, hpth], htok⟩
        · exact ⟨by simp [loginCall, authenticateWithGoogle, htok, hpth], tok,
            by simp [loginCall, authenticateWithGoogle, htok, hpth], htok⟩
    | exFail =>
      intro h
      obtain ⟨h1, t, h2, h3⟩ := hinv (by simpa [loginCall, authenticateWithGoogle] using h)
      exact ⟨by simpa [loginCall, authenticateWithGoogle] using h1, t,
        by simpa [loginCall, authenticateWithGoogle] using h2, h3⟩
  | logout resp =>
    intro h
    simp [stepEv, logoutCallFn] at h

/-- Fold form of the preservation lemma. -/
theorem sessionInv_foldl (evs : List AuthEvent) (s : ClientState)
    (hs : sessionInv s) (h : evs.all evWF = true) :
    sessionInv (evs.foldl (fun s e => (stepEv s e).1) s) := by
  induction evs generalizing s with
  | nil => exact hs
  | cons e evs ih =>
    rw [List.all_cons, Bool.and_eq_true] at h
    rw [List.foldl_cons]
    exact ih ((stepEv s e).1) (sessionInv_step s e hs h.1) h.2

/-- C1.  Along every sequence of identity-provider events and explicit
login/logout calls (composed with this backend, whose issued tokens are
non-empty strings — `evWF`), whenever the exposed `isAuthenticated` is true,
`user` is non-null and a non-empty token sits in the Token Store; and a
mount-time Token Store holding only one of the pair (token, cached user)
resolves to the logged-out state. -/
theorem session_state_invariant :
    (∀ (st0 : TokenStore) (page : String) (evs : List AuthEvent),
      evs.all evWF = true → sessionInv (runClient st0 page evs)) ∧
    (∀ (st0 : TokenStore) (page : String),
      st0.authToken = none ∨ st0.userData = none →
      (initClient st0 page).isAuthenticated = false ∧
      (initClient st0 page).user = none) := by
  constructor
  · intro st0 page evs h
    exact sessionInv_foldl evs (initClient st0 page) (sessionInv_init st0 page) h
  · intro st0 page h
    obtain ⟨tk, ud⟩ := st0
    rcases h with h | h
    · simp only at h
      subst h
      cases ud <;> simp [initClient]
    · simp only at h
      subst h
      cases tk <;> simp [initClient]

/-- C1 witness: a concrete run (sign-in event, then logout) keeps the
invariant, and a concrete store holding a token but no cached user mounts
logged out. -/
theorem session_state_invariant_witness :
    sessionInv (runClient ⟨none, none⟩ "/"
      [.fbEvent (some demoUser) (.exOk "jwt1"), .logout (.ok ())]) ∧
    ((initClient ⟨some "tok", none⟩ "/").isAuthenticated = false ∧
     (initClient ⟨some "tok", none⟩ "/").user = none) :=
  ⟨session_state_invariant.1 ⟨none, none⟩ "/"
      [.fbEvent (some demoUser) (.exOk "jwt1"), .logout (.ok ())] (by decide),
   session_state_invariant.2 ⟨some "tok", none⟩ "/" (Or.inr rfl)⟩

/-- C9.  Mounting over a Token Store holding both a cached user and a
non-empty token yields `AUTHENTICATED(user)` purely from the synchronous
cache read — `initClient` takes no network input — with
`hasProcessedInitialAuth` set; consequently the first non-null
identity-provider event performs no backend exchange: its outcome does not
depend on any exchange result and only clears `loading`. -/
theorem cached_session_honored (t : String) (u fu : UserInfo) (page : String)
    (r r' : ExchResult) (ht : t ≠ "") :
    (initClient ⟨some t, some u⟩ page).isAuthenticated = true ∧
    (initClient ⟨some t, some u⟩ page).user = some u ∧
    (initClient ⟨some t, some u⟩ page).hasProcessedInitialAuth = true ∧
    stepEv (initClient ⟨some t, some u⟩ page) (.fbEvent (some fu) r) =
      stepEv (initClient ⟨some t, some u⟩ page) (.fbEvent (some fu) r') ∧
    (stepEv (initClient ⟨some t, some u⟩ page) (.fbEvent (some fu) r)).1 =
      { initClient ⟨some t, some u⟩ page with loading := false } := by
  refine ⟨by simp [initClient, ht], by simp [initClient, ht], by simp [initClient, ht],
    ?_, ?_⟩
  · simp [stepEv, initClient, ht, onAuthStateChangedCb]
  · simp [stepEv, initClient, ht, onAuthStateChangedCb]

/-- C9 witness: concrete cached session, first event carrying a failing and a
succeeding exchange outcome alike. -/
theorem cached_session_honored_witness :
    (initClient ⟨some "tok", some demoUser⟩ "/dashboard").isAuthenticated = true ∧
    (initClient ⟨some "tok", some demoUser⟩ "/dashboard").user = some demoUser ∧
    (initClient ⟨some "tok", some demoUser⟩ "/dashboard").hasProcessedInitialAuth = true ∧
    stepEv (initClient ⟨some "tok", some demoUser⟩ "/dashboard")
        (.fbEvent (some demoUser) (.exOk "jwt2")) =
      stepEv (initClient ⟨some "tok", some demoUser⟩ "/dashboard")
        (.fbEvent (some demoUser) .exFail) ∧
    (stepEv (initClient ⟨some "tok", some demoUser⟩ "/dashboard")
        (.fbEvent (some demoUser) (.exOk "jwt2"))).1 =
      { initClient ⟨some "tok", some demoUser⟩ "/dashboard" with loading := false } :=
  cached_session_honored "tok" demoUser demoUser "/dashboard" (.exOk "jwt2") .exFail
    (by decide)

/-- C3 counterexample.  `generateAudio` reaches the backend through a direct
`fetch`, bypassing `makeRequest`: on a 401 response it only throws — both
Token Store keys survive and no navigation is forced, refuting the claim for
this gateway endpoint. -/
theorem gateway_401_counterexample :
    generateAudio ⟨some "tok", some demoUser⟩ (.errSt 401 "Token expired") =
      ⟨⟨some "tok", some demoUser⟩, none,
        .error "Podcast audio generation failed: Token expired"⟩ ∧
    (⟨some "tok", some demoUser⟩ : TokenStore).authToken ≠ none := by
  exact ⟨rfl, by simp⟩

/-- C3 amended.  Every endpoint routed through `makeRequest` (all `post` /
`get` / `delete` API methods) reacts to a 401 response by removing both Token
Store keys and forcing a hard navigation to the entry page before throwing;
`generateAudio`, which bypasses `makeRequest`, leaves the store and location
untouched on a 401 and only throws. -/
theorem gateway_401_teardown :
    (∀ (α : Type) (st : TokenStore) (msg : String),
      makeRequest (α := α) st (.errSt 401 msg) = ⟨emptyStore, some "/", .error msg⟩) ∧
    (∀ (st : TokenStore) (msg : String),
      (generateAudio st (.errSt 401 msg)).store = st ∧
      (generateAudio st (.errSt 401 msg)).redirect = none) := by
  exact ⟨fun α st msg => by simp [makeRequest], fun st msg => ⟨rfl, rfl⟩⟩

/-- C4 counterexample.  Calling `logout()` in the `UNAUTHENTICATED` state
(composed with this backend: the tokenless logout call is rejected 401 by
`verifyToken`) does not throw and leaves the session fields unchanged, but it
is not free of other observable effects: `makeRequest`'s 401 handling assigns
`window.location.href = "/"`, a forced hard navigation, so the resulting
state differs from the initial one. -/
theorem logout_idempotent_counterexample :
    (stepEv unauthState (.logout (serverLogoutResp unauthState.store
        Jwt.malformedTok "your-secret-key" 0))).1.lastHardRedirect = some "/" ∧
    unauthState.lastHardRedirect = none ∧
    (stepEv unauthState (.logout (serverLogoutResp unauthState.store
        Jwt.malformedTok "your-secret-key" 0))).1 ≠ unauthState := by
  exact ⟨rfl, rfl, by decide⟩

/-- C4 amended.  From any `UNAUTHENTICATED` state (user null, not
authenticated, both store keys absent), `logout()` composed with this
backend's `/api/auth/logout` does not throw and leaves `user`,
`isAuthenticated` and the Token Store unchanged; its only observable effect
is the hard navigation to the entry page triggered by the 401 handling of the
backend logout call. -/
theorem logout_idempotent_amended (s : ClientState) (dec : String → Jwt)
    (secret : String) (now : Nat)
    (hu : s.user = none) (ha : s.isAuthenticated = false) (hst : s.store = emptyStore) :
    stepEv s (.logout (serverLogoutResp s.store dec secret now)) =
      ({ s with lastHardRedirect := some "/" }, false) := by
  obtain ⟨u, l, ia, f, st, red, page⟩ := s
  simp only at hu ha hst
  subst hu
  subst ha
  subst hst
  simp [stepEv, logoutCallFn, apiLogout, makeRequest, serverLogoutResp,
    verifyTokenMw, emptyStore]

/-- C4 amended witness. -/
theorem logout_idempotent_amended_witness :
    stepEv unauthState (.logout (serverLogoutResp unauthState.store
        Jwt.malformedTok "your-secret-key" 0)) =
      ({ unauthState with lastHardRedirect := some "/" }, false) :=
  logout_idempotent_amended unauthState Jwt.malformedTok "your-secret-key" 0 rfl rfl rfl
